import Mathlib

/-!
Verification of the method-dispatch and transport core of a JSON-RPC
Bitcoin Core client (src/BitcoinClient.js, src/constants.js, helper
functions).  The embedding models:

* the JSON value space and the behaviour of JavaScript's JSON.parse on it
  (numeric literals are modelled on the integral fragment: every numeric
  literal appearing in the analysed requests and responses is an integer);
* the RPC method registry object RPC from constants.js, including the
  JavaScript property-lookup semantics RPC[method] (own keys shadow the
  inherited Object.prototype properties, which are not undefined);
* the helper functions isKnownMethod and isValidArgsForMethod
  (a JavaScript TypeError thrown by a property read on undefined is
  modelled as Except.error);
* the __send call path: the unknown-method gate, the request body built
  on line 23, and the response handler (status classification on lines
  31-35 and the per-chunk data handler on lines 36-43).  A promise
  settles at most once, so the synchronous status rejection wins over
  any data event, and the first data chunk settles the promise.
-/

/-- JSON values.  Numbers carry the integral fragment only: every numeric
literal in the requests and responses under analysis is an integer. -/
inductive Json where
  | null
  | bool (b : Bool)
  | num (n : Int)
  | str (s : String)
  | arr (elems : List Json)
  | obj (fields : List (String × Json))
deriving Repr

/-- whitespace skipping of JSON.parse. -/
def skipWs : List Char → List Char
  | [] => []
  | c :: cs => if c = ' ' ∨ c = '\n' ∨ c = '\t' ∨ c = '\r' then skipWs cs else c :: cs

/-- body of a JSON string literal, after the opening quote; handles the
standard escapes. -/
def parseStringBody (acc : List Char) : List Char → Option (String × List Char)
  | [] => none
  | c :: cs =>
    if c = '"' then some (String.mk acc.reverse, cs)
    else if c = '\\' then
      match cs with
      | [] => none
      | e :: cs' =>
        let dec : Option Char :=
          if e = '"' then some '"'
          else if e = '\\' then some '\\'
          else if e = '/' then some '/'
          else if e = 'n' then some '\n'
          else if e = 't' then some '\t'
          else if e = 'r' then some '\r'
          else none
        match dec with
        | some d => parseStringBody (d :: acc) cs'
        | none => none
    else parseStringBody (c :: acc) cs

/-- leading decimal digits of the input, and the rest. -/
def takeDigits : List Char → List Char × List Char
  | [] => ([], [])
  | c :: cs =>
    if '0' ≤ c ∧ c ≤ '9' then
      let (ds, r) := takeDigits cs
      (c :: ds, r)
    else ([], c :: cs)

/-- numeric value of a digit string. -/
def digitsToNat (ds : List Char) : Nat :=
  ds.foldl (fun a c => a * 10 + (c.toNat - 48)) 0

/-- integral JSON number at the head of the input. -/
def parseNumber : List Char → Option (Int × List Char)
  | '-' :: rest =>
    match takeDigits rest with
    | ([], _) => none
    | (ds, r) => some (-(digitsToNat ds : Int), r)
  | cs =>
    match takeDigits cs with
    | ([], _) => none
    | (ds, r) => some ((digitsToNat ds : Int), r)

/-- consumes the expected literal characters. -/
def stripLit : List Char → List Char → Option (List Char)
  | [], cs => some cs
  | p :: ps, c :: cs => if c = p then stripLit ps cs else none
  | _ :: _, [] => none

mutual

/-- one JSON value at the head of the input (fuel-indexed recursion). -/
def parseVal : Nat → List Char → Option (Json × List Char)
  | 0, _ => none
  | fuel + 1, input =>
    match skipWs input with
    | [] => none
    | c :: cs =>
      if c = 'n' then (stripLit ['u', 'l', 'l'] cs).map (fun r => (Json.null, r))
      else if c = 't' then (stripLit ['r', 'u', 'e'] cs).map (fun r => (Json.bool true, r))
      else if c = 'f' then (stripLit ['a', 'l', 's', 'e'] cs).map (fun r => (Json.bool false, r))
      else if c = '"' then (parseStringBody [] cs).map (fun p => (Json.str p.1, p.2))
      else if c = '[' then
        match skipWs cs with
        | ']' :: r => some (Json.arr [], r)
        | rest => parseElems fuel rest []
      else if c = '\x7b' then
        match skipWs cs with
        | '\x7d' :: r => some (Json.obj [], r)
        | rest => parseFields fuel rest []
      else (parseNumber (c :: cs)).map (fun p => (Json.num p.1, p.2))

/-- elements of a JSON array after the opening bracket (at least one). -/
def parseElems : Nat → List Char → List Json → Option (Json × List Char)
  | 0, _, _ => none
  | fuel + 1, input, acc =>
    match parseVal fuel input with
    | none => none
    | some (j, rest) =>
      match skipWs rest with
      | ',' :: r => parseElems fuel r (j :: acc)
      | ']' :: r => some (Json.arr (j :: acc).reverse, r)
      | _ => none

/-- members of a JSON object after the opening brace (at least one). -/
def parseFields : Nat → List Char → List (String × Json) → Option (Json × List Char)
  | 0, _, _ => none
  | fuel + 1, input, acc =>
    match skipWs input with
    | '"' :: r =>
      match parseStringBody [] r with
      | none => none
      | some (k, r2) =>
        match skipWs r2 with
        | ':' :: r3 =>
          match parseVal fuel r3 with
          | none => none
          | some (v, r4) =>
            match skipWs r4 with
            | ',' :: r5 => parseFields fuel r5 ((k, v) :: acc)
            | '\x7d' :: r5 => some (Json.obj ((k, v) :: acc).reverse, r5)
            | _ => none
        | _ => none
    | _ => none

end

/-- models JSON.parse: a single JSON document, surrounded by optional
whitespace; anything else (including a truncated document) throws, which
is modelled as none. -/
def jsonParse (s : String) : Option Json :=
  match parseVal (s.toList.length * 2 + 4) s.toList with
  | some (j, rest) => if skipWs rest = [] then some j else none
  | none => none

/-- models a JavaScript property read v.key: a value on an object literal
that has the key, undefined (none) otherwise. -/
def jsProp (j : Json) (key : String) : Option Json :=
  match j with
  | Json.obj fields => fields.lookup key
  | _ => none

/-- key list of a JSON object, in order. -/
def objKeys (j : Json) : Option (List String) :=
  match j with
  | Json.obj fields => some (fields.map Prod.fst)
  | _ => none

/-- value of the args property of one registry entry (constants.js).  The
call-path code reads only the length of this value (helper
isValidArgsForMethod), so an argument descriptor is abstracted to its
requiredness flag (true models type: ARG_TYPE_REQ, false ARG_TYPE_OPT);
the name, default and valid-values hints are never read by any code.
setnetworkactive stores a single descriptor object instead of an array
(its length property is then undefined). -/
inductive ArgsField where
  | list (required : List Bool)
  | single
deriving Repr, DecidableEq

/-- registry table RPC of constants.js: every key, in source order, paired
with its entry's optional args field (none when the entry object has no
args key). -/
def RPC : List (String × Option ArgsField) := [
  ("getbestblockhash", none),
  ("getblock", some (ArgsField.list [true, false])),
  ("getblockchaininfo", none),
  ("getblockcount", none),
  ("getblockfilter", some (ArgsField.list [true, false])),
  ("getblockhash", some (ArgsField.list [true])),
  ("getblockheader", none),
  ("getblockstats", none),
  ("getchaintips", none),
  ("getchaintxstats", none),
  ("getdifficulty", none),
  ("getmempoolancestors", none),
  ("getmempooldescendants", none),
  ("getmempoolentry", none),
  ("getmempoolinfo", none),
  ("getrawmempool", none),
  ("gettxout", none),
  ("gettxoutproof", none),
  ("gettxoutsetinfo", none),
  ("preciousblock", none),
  ("pruneblockchain", none),
  ("savemempool", none),
  ("scantxoutset", none),
  ("verifychain", none),
  ("verifytxoutproof", none),
  ("getmemoryinfo", some (ArgsField.list [false])),
  ("getrpcinfo", none),
  ("help", none),
  ("logging", some (ArgsField.list [false, false])),
  ("stop", none),
  ("uptime", none),
  ("generateblock", none),
  ("generatetoaddress", none),
  ("generatetodescriptor", none),
  ("getblocktemplate", none),
  ("getmininginfo", none),
  ("getnetworkhashps", none),
  ("prioritisetransaction", none),
  ("submitblock", none),
  ("submitheader", none),
  ("addnode", some (ArgsField.list [true, true])),
  ("clearbanned", none),
  ("disconnectnode", none),
  ("getaddednodeinfo", some (ArgsField.list [false])),
  ("getconnectioncount", none),
  ("getnettotals", none),
  ("getnetworkinfo", none),
  ("getnodeaddresses", some (ArgsField.list [false])),
  ("getpeerinfo", none),
  ("listbanned", none),
  ("ping", none),
  ("setban", some (ArgsField.list [true, true, false, false])),
  ("setnetworkactive", some ArgsField.single),
  ("analyzepsbt", none),
  ("combinepsbt", none),
  ("combinerawtransaction", none),
  ("converttopsbt", none),
  ("createpsbt", none),
  ("createrawtransaction", none),
  ("decodepsbt", none),
  ("decoderawtransaction", none),
  ("decodescript", none),
  ("finalizepsbt", none),
  ("fundrawtransaction", none),
  ("getrawtransaction", none),
  ("joinpsbts", none),
  ("sendrawtransaction", none),
  ("signrawtransactionwithkey", none),
  ("testmempoolaccept", none),
  ("utxoupdatepsbt", none),
  ("createmultisig", none),
  ("deriveaddresses", none),
  ("estimatesmartfee", none),
  ("getdescriptorinfo", none),
  ("getindexinfo", none),
  ("signmessagewithprivkey", none),
  ("validateaddress", none),
  ("verifymessage", none),
  ("abandontransaction", none),
  ("abortrescan", none),
  ("addmultisigaddress", none),
  ("backupwallet", none),
  ("bumpfee", none),
  ("createwallet", none),
  ("dumpprivkey", none),
  ("dumpwallet", none),
  ("encryptwallet", none),
  ("getaddressesbylabel", none),
  ("getaddressinfo", none),
  ("getbalance", none),
  ("getbalances", none),
  ("getnewaddress", none),
  ("getrawchangeaddress", none),
  ("getreceivedbyaddress", none),
  ("getreceivedbylabel", none),
  ("gettransaction", none),
  ("getunconfirmedbalance", none),
  ("getwalletinfo", none),
  ("importaddress", none),
  ("importdescriptors", none),
  ("importmulti", none),
  ("importprivkey", none),
  ("importprunedfunds", none),
  ("importpubkey", none),
  ("importwallet", none),
  ("keypoolrefill", none),
  ("listaddressgroupings", none),
  ("listlabels", none),
  ("listlockunspent", none),
  ("listreceivedbyaddress", none),
  ("listreceivedbylabel", none),
  ("listsinceblock", none),
  ("listtransactions", none),
  ("listunspent", none),
  ("listwalletdir", none),
  ("listwallets", none),
  ("loadwallet", none),
  ("lockunspent", none),
  ("psbtbumpfee", none),
  ("removeprunedfunds", none),
  ("rescanblockchain", none),
  ("send", none),
  ("sendmany", none),
  ("sendtoaddress", none),
  ("sethdseed", none),
  ("setlabel", none),
  ("settxfee", none),
  ("setwalletflag", none),
  ("signmessage", none),
  ("signrawtransactionwithwallet", none),
  ("unloadwallet", none),
  ("upgradewallet", none),
  ("walletcreatefundedpsbt", none),
  ("walletlock", none),
  ("walletpassphrase", none),
  ("walletpassphrasechange", none),
  ("walletprocesspsbt", none)]

/-- property names every plain JavaScript object literal inherits from
Object.prototype: reading one on the RPC table yields a function (or, for
the last entry, the prototype object itself), never undefined. -/
def objectPrototypeProps : List String :=
  ["constructor", "hasOwnProperty", "isPrototypeOf", "propertyIsEnumerable",
   "toLocaleString", "toString", "valueOf",
   "__defineGetter__", "__defineSetter__", "__lookupGetter__",
   "__lookupSetter__", "__proto__"]

/-- result of the JavaScript lookup RPC[method]: an own entry of the table
(with its args field), an inherited Object.prototype value (not
undefined, and itself without an args property), or undefined. -/
inductive JsLookup where
  | entry (argsField : Option ArgsField)
  | protoValue
  | undef
deriving Repr, DecidableEq

/-- models the property lookup RPC[method] on the table object. -/
def rpcIndex (method : String) : JsLookup :=
  match RPC.lookup method with
  | some af => JsLookup.entry af
  | none =>
    if objectPrototypeProps.contains method then JsLookup.protoValue
    else JsLookup.undef

/-- helper isKnownMethod: RPC[method] !== undefined. -/
def isKnownMethod (method : String) : Bool :=
  match rpcIndex method with
  | JsLookup.undef => false
  | _ => true

/-- value of the expression RPC[method].args read by isValidArgsForMethod:
the entry's args field for an own key, undefined (none) for an inherited
prototype value (functions carry no args property). -/
def specifiedArgsOf (method : String) : Option ArgsField :=
  match rpcIndex method with
  | JsLookup.entry af => af
  | _ => none

/-- message of the TypeError a JavaScript property read of length on
undefined throws. -/
def lengthOfUndefinedMsg : String :=
  "TypeError: Cannot read properties of undefined (reading length)"

/-- length property of an args value: the element count for an array, and
undefined (none) for the single descriptor object of setnetworkactive. -/
def jsLengthOf : ArgsField → Option Nat
  | ArgsField.list l => some l.length
  | ArgsField.single => none

/-- helper isValidArgsForMethod: returns false for an unknown method; then
reads specifiedArgs = RPC[method].args and compares args.length !==
specifiedArgs.length — when specifiedArgs is undefined that read throws a
TypeError (modelled as Except.error); both remaining paths return false
(the final return false is unconditional, the validation is unfinished). -/
def isValidArgsForMethod (method : String) (args : List Json) : Except String Bool :=
  if !(isKnownMethod method) then Except.ok false
  else
    match specifiedArgsOf method with
    | none => Except.error lengthOfUndefinedMsg
    | some af =>
      if some args.length ≠ jsLengthOf af then Except.ok false
      else Except.ok false

/-- request body built on line 23 of BitcoinClient.js:
JSON.stringify on the object literal with keys jsonrpc, id, method,
params (the id is the constant string curltest). -/
def mkRequestObj (method : String) (args : List Json) : Json :=
  Json.obj [("jsonrpc", Json.str "1.0"), ("id", Json.str "curltest"),
    ("method", Json.str method), ("params", Json.arr args)]

/-- terminal settlement of one call: the value passed to resolve (an
undefined property read modelled as none inside success) or the rejection
the handler produced. -/
inductive Outcome where
  | success (v : Option Json)
  | clientError (method : String) (statusCode : Nat)
  | serverError (method : String) (statusCode : Nat)
  | decodeError (chunk : String)
deriving Repr

/-- response handler installed by __send (lines 30-43): the synchronous
status checks run before any data event, so a promise they reject is
settled for good; otherwise each data chunk is classified on its own
(JSON.parse on the chunk, resolve with response.result or reject), and
the first chunk settles the promise.  With no data event the promise
never settles (none). -/
def settle (method : String) (statusCode : Nat) (chunks : List String) : Option Outcome :=
  if 400 < statusCode ∧ statusCode < 500 then some (Outcome.clientError method statusCode)
  else if 500 < statusCode ∧ statusCode < 600 then some (Outcome.serverError method statusCode)
  else
    match chunks with
    | [] => none
    | chunk :: _ =>
      match jsonParse chunk with
      | some response => some (Outcome.success (jsProp response "result"))
      | none => some (Outcome.decodeError chunk)

/-- observable result of one __send invocation against a stubbed
transport: either the early rejection of the unknown-method gate (line
19, no request is built and nothing reaches the network), or the request
body that was POSTed together with the settlement of the promise. -/
inductive CallResult where
  | rejectUnknownMethod
  | sent (requestBody : Json) (outcome : Option Outcome)
deriving Repr

/-- call path __send of BitcoinClient.js against a transport stub that
answers with the given status code and body chunks. -/
def sendCall (method : String) (args : List Json) (statusCode : Nat)
    (chunks : List String) : CallResult :=
  if !(isKnownMethod method) then CallResult.rejectUnknownMethod
  else CallResult.sent (mkRequestObj method args) (settle method statusCode chunks)

/-- sanity: jsonParse decodes the response envelopes used below the way
JSON.parse does. -/
theorem jsonParse_sanity :
    jsonParse "\x7b\"result\": 42, \"error\": null\x7d" =
      some (Json.obj [("result", Json.num 42), ("error", Json.null)]) ∧
    jsonParse "not-json" = none ∧
    jsonParse "\x7b\"result\": 42," = none ∧
    jsonParse "\x7b\"result\": null, \"error\": \x7b\"code\": -5, \"message\": \"not found\"\x7d\x7d" =
      some (Json.obj [("result", Json.null),
        ("error", Json.obj [("code", Json.num (-5)), ("message", Json.str "not found")])]) :=
  ⟨rfl, rfl, rfl, rfl⟩

/-- sanity: the registry accepts a table key, rejects a fresh name, and
the arity check runs on representative entries without throwing. -/
theorem registry_sanity :
    isKnownMethod "getblockcount" = true ∧
    isKnownMethod "nosuchmethod" = false ∧
    isValidArgsForMethod "getblock" [] = Except.ok false ∧
    isValidArgsForMethod "setnetworkactive" [Json.bool true] = Except.ok false ∧
    isValidArgsForMethod "nosuchmethod" [] = Except.ok false :=
  ⟨rfl, rfl, rfl, rfl, rfl⟩

/-- body of a successful JSON-RPC response carrying result 42. -/
def result42Body : String := "\x7b\"result\": 42, \"error\": null\x7d"

/-- body of a JSON-RPC response carrying a non-null error envelope with
code -5 and a null result. -/
def appErrorBody : String :=
  "\x7b\"result\": null, \"error\": \x7b\"code\": -5, \"message\": \"not found\"\x7d\x7d"

/-- first half of result42Body, as the first of two transport chunks. -/
def chunkA : String := "\x7b\"result\": 42,"

/-- second half of result42Body, as the second of two transport chunks. -/
def chunkB : String := " \"error\": null\x7d"

/-- C1: the spec requires a non-null error field in a 200 response to
reject the call with an ApplicationError carrying the remote code (-5
here); the code never inspects the error field and resolves with the
null result instead — evaluation of the call path at the failing
input. -/
theorem c1_error_field_ignored :
    sendCall "getblockcount" [] 200 [appErrorBody] =
      CallResult.sent (mkRequestObj "getblockcount" [])
        (some (Outcome.success (some Json.null))) := rfl

/-- C2: the spec requires chunks to be concatenated before
classification; the code classifies the first chunk alone, so a body
split into two chunks is rejected as a parse failure while the same body
in one chunk resolves with 42 — the two outcomes differ and the first
chunk is classified in isolation. -/
theorem c2_first_chunk_classified :
    chunkA ++ chunkB = result42Body ∧
    sendCall "getblockcount" [] 200 [chunkA, chunkB] =
      CallResult.sent (mkRequestObj "getblockcount" [])
        (some (Outcome.decodeError chunkA)) ∧
    sendCall "getblockcount" [] 200 [result42Body] =
      CallResult.sent (mkRequestObj "getblockcount" [])
        (some (Outcome.success (some (Json.num 42)))) :=
  ⟨rfl, rfl, rfl⟩

/-- C3: the claim wants every method name outside the registry rejected
with UnknownMethod before any network operation; the name toString is
not a key of the RPC table, yet the existence check accepts it (it is an
inherited Object.prototype property), so a request body is built and
sent — evaluation of the call path at the failing input. -/
theorem c3_unknown_method_gate_leak :
    RPC.lookup "toString" = none ∧
    sendCall "toString" [] 200 [result42Body] =
      CallResult.sent (mkRequestObj "toString" [])
        (some (Outcome.success (some (Json.num 42)))) :=
  ⟨rfl, rfl⟩

/-- C3 complement: for every method name the existence check rejects,
the call rejects before any request is built or sent. -/
theorem unknownMethod_rejected_before_io (method : String) (args : List Json)
    (statusCode : Nat) (chunks : List String)
    (h : isKnownMethod method = false) :
    sendCall method args statusCode chunks = CallResult.rejectUnknownMethod := by
  unfold sendCall
  rw [h]
  rfl

/-- C4: for every method name and argument list, the encoded request
body is a JSON object with exactly the keys jsonrpc, id, method and
params, in this order; jsonrpc is the string 1.0, id is a string,
method is the requested name, and params is exactly the argument list,
element for element. -/
theorem c4_request_codec (method : String) (args : List Json) :
    objKeys (mkRequestObj method args) = some ["jsonrpc", "id", "method", "params"] ∧
    jsProp (mkRequestObj method args) "jsonrpc" = some (Json.str "1.0") ∧
    jsProp (mkRequestObj method args) "id" = some (Json.str "curltest") ∧
    jsProp (mkRequestObj method args) "method" = some (Json.str method) ∧
    jsProp (mkRequestObj method args) "params" = some (Json.arr args) :=
  ⟨rfl, rfl, rfl, rfl, rfl⟩

/-- C5 counterexample: at HTTP status 400 (which the claim places inside
the ClientError interval) the call resolves on the success path instead
of rejecting with a ClientError, because the code tests statusCode >
400 strictly. -/
theorem c5_status400_counterexample :
    sendCall "getblockcount" [] 400 [result42Body] =
      CallResult.sent (mkRequestObj "getblockcount" [])
        (some (Outcome.success (some (Json.num 42)))) ∧
    ¬ sendCall "getblockcount" [] 400 [result42Body] =
      CallResult.sent (mkRequestObj "getblockcount" [])
        (some (Outcome.clientError "getblockcount" 400)) :=
  ⟨rfl, by intro h; injection h with h1 h2; injection h2 with h3; injection h3⟩

/-- C5 amended: for every known method and every status code strictly
between 400 and 500, the call rejects with a ClientError carrying the
method name and the status code, whatever the body chunks. -/
theorem c5_client_error (method : String) (args : List Json) (statusCode : Nat)
    (chunks : List String) (hm : isKnownMethod method = true)
    (h1 : 400 < statusCode) (h2 : statusCode < 500) :
    sendCall method args statusCode chunks =
      CallResult.sent (mkRequestObj method args)
        (some (Outcome.clientError method statusCode)) := by
  unfold sendCall settle
  rw [hm]
  simp [h1, h2]

/-- C5 witness: HTTP 404 on a known method rejects with a ClientError
carrying the method name and 404. -/
theorem c5_client_error_witness :
    sendCall "getblockcount" [] 404 [result42Body] =
      CallResult.sent (mkRequestObj "getblockcount" [])
        (some (Outcome.clientError "getblockcount" 404)) :=
  c5_client_error "getblockcount" [] 404 [result42Body] rfl (by decide) (by decide)

/-- C6 counterexample: at HTTP status 500 (which the claim places inside
the ServerError interval) the call resolves on the success path instead
of rejecting with a ServerError, because the code tests statusCode >
500 strictly. -/
theorem c6_status500_counterexample :
    sendCall "getblockcount" [] 500 [result42Body] =
      CallResult.sent (mkRequestObj "getblockcount" [])
        (some (Outcome.success (some (Json.num 42)))) ∧
    ¬ sendCall "getblockcount" [] 500 [result42Body] =
      CallResult.sent (mkRequestObj "getblockcount" [])
        (some (Outcome.serverError "getblockcount" 500)) :=
  ⟨rfl, by intro h; injection h with h1 h2; injection h2 with h3; injection h3⟩

/-- C6 amended: for every known method and every status code strictly
between 500 and 600, the call rejects with a ServerError carrying the
method name and the status code, whatever the body chunks. -/
theorem c6_server_error (method : String) (args : List Json) (statusCode : Nat)
    (chunks : List String) (hm : isKnownMethod method = true)
    (h1 : 500 < statusCode) (h2 : statusCode < 600) :
    sendCall method args statusCode chunks =
      CallResult.sent (mkRequestObj method args)
        (some (Outcome.serverError method statusCode)) := by
  unfold sendCall settle
  rw [hm]
  have h3 : ¬ (400 < statusCode ∧ statusCode < 500) := by omega
  simp [h1, h2, h3]

/-- C6 witness: HTTP 503 on a known method rejects with a ServerError
carrying the method name and 503. -/
theorem c6_server_error_witness :
    sendCall "getblockcount" [] 503 [result42Body] =
      CallResult.sent (mkRequestObj "getblockcount" [])
        (some (Outcome.serverError "getblockcount" 503)) :=
  c6_server_error "getblockcount" [] 503 [result42Body] rfl (by decide) (by decide)

/-- C7 counterexample: isValidArgsForMethod does not always return
false — on the known method getbestblockhash (whose registry entry has
no args field) it throws a TypeError reading length of undefined
instead of returning. -/
theorem c7_throws_counterexample :
    isValidArgsForMethod "getbestblockhash" [] = Except.error lengthOfUndefinedMsg ∧
    ¬ isValidArgsForMethod "getbestblockhash" [] = Except.ok false ∧
    ¬ isValidArgsForMethod "getbestblockhash" [] = Except.ok true :=
  ⟨rfl, by intro h; injection h, by intro h; injection h⟩

/-- C7 amended: isValidArgsForMethod never returns true; on every input
it either returns false (unknown method, or a registry entry whose args
field is present) or throws the TypeError of reading length on the
undefined args field. -/
theorem c7_fails_open (method : String) (args : List Json) :
    isValidArgsForMethod method args = Except.ok false ∨
    isValidArgsForMethod method args = Except.error lengthOfUndefinedMsg := by
  unfold isValidArgsForMethod
  split
  · exact Or.inl rfl
  · split
    · exact Or.inr rfl
    · split
      · exact Or.inl rfl
      · exact Or.inl rfl

/-- C8: for every known method, HTTP 200 with the body carrying result
42 and a null error resolves the call with the value 42, the result
field of the parsed envelope. -/
theorem c8_success_resolves_result (method : String)
    (hm : isKnownMethod method = true) :
    sendCall method [] 200 [result42Body] =
      CallResult.sent (mkRequestObj method [])
        (some (Outcome.success (some (Json.num 42)))) := by
  unfold sendCall
  rw [hm]
  rfl

/-- C8 witness: the success path at the concrete method getblockcount. -/
theorem c8_success_witness :
    sendCall "getblockcount" [] 200 [result42Body] =
      CallResult.sent (mkRequestObj "getblockcount" [])
        (some (Outcome.success (some (Json.num 42)))) :=
  c8_success_resolves_result "getblockcount" rfl

/-- C9: for every known method, HTTP 200 with the unparsable body
not-json rejects the call with a decode failure carrying the original
body bytes. -/
theorem c9_decode_error (method : String) (hm : isKnownMethod method = true) :
    sendCall method [] 200 ["not-json"] =
      CallResult.sent (mkRequestObj method [])
        (some (Outcome.decodeError "not-json")) := by
  unfold sendCall
  rw [hm]
  rfl

/-- C9 witness: the decode failure at the concrete method getblockcount. -/
theorem c9_decode_error_witness :
    sendCall "getblockcount" [] 200 ["not-json"] =
      CallResult.sent (mkRequestObj "getblockcount" [])
        (some (Outcome.decodeError "not-json")) :=
  c9_decode_error "getblockcount" rfl

/-- C10: the names of Object.prototype properties are not keys of the
RPC table, yet isKnownMethod accepts them (the lookup RPC[method] finds
the inherited property, which is not undefined), and a call with such a
name passes the gate and reaches the transport. -/
theorem c10_prototype_names_pass_gate :
    (RPC.lookup "toString" = none ∧ isKnownMethod "toString" = true) ∧
    (RPC.lookup "hasOwnProperty" = none ∧ isKnownMethod "hasOwnProperty" = true) ∧
    (RPC.lookup "constructor" = none ∧ isKnownMethod "constructor" = true) ∧
    (RPC.lookup "__proto__" = none ∧ isKnownMethod "__proto__" = true) ∧
    sendCall "hasOwnProperty" [] 200 [] =
      CallResult.sent (mkRequestObj "hasOwnProperty" []) none :=
  ⟨⟨rfl, rfl⟩, ⟨rfl, rfl⟩, ⟨rfl, rfl⟩, ⟨rfl, rfl⟩, rfl⟩
